import Mathlib

/-!
Shallow embedding of `src/7-spacex_dash_app.py`, a Plotly Dash dashboard over a
table of SpaceX launch records.

The dataframe `spacex_df` is modelled as a list of `LaunchRecord`, one per row,
with the four columns the callbacks touch: `Launch Site`, `Payload Mass (kg)`,
`class` and `Booster Version Category`.  Numbers are modelled as `Int`.  A chart
produced by `px.pie` or `px.scatter` is modelled as a `Figure` holding exactly
the column bindings the call passes to the plotting library, plus the title.
The two callbacks `get_pie_chart` and `get_scatter_chart` are translated
statement by statement.  The pie callback cannot fail and is a pure function of
the dataset and the dropdown value.  The scatter callback's specific-site
branch reaches line 158, whose column assignment raises `ValueError` in pandas
(a multi-column frame assigned to a single column), so the scatter callback
returns `Except PandasError Figure`, the error propagating out of the callback
as the uncaught exception does.  Pandas boolean indexing returns fresh frames
and neither callback assigns to the module-level `spacex_df` (the failing
assignment touches only a local copy), so a stateful wrapper (`invoke`,
`runAll`) threads the module-level dataset through a run of callback
invocations unchanged.
-/

/-- One row of `spacex_df`: fields are the columns `Launch Site`,
`Payload Mass (kg)`, `class` and `Booster Version Category`. -/
structure LaunchRecord where
  launchSite : String
  payloadMassKg : Int
  outcomeClass : Int
  boosterVersionCategory : String
deriving DecidableEq

/-- A chart specification: the column bindings handed to `px.pie`
(`values=`, `names=`, `title=`) or to `px.scatter` (`x=`, `y=`, `color=`,
`title=`). -/
inductive Figure where
  | pie (values : List Int) (names : List String) (title : String)
  | scatter (xs : List Int) (ys : List Int) (colors : List String) (title : String)
deriving DecidableEq

/-- Lines 144-147: `spacex_df[(slider[0] <= spacex_df["Payload Mass (kg)"]) &
(spacex_df["Payload Mass (kg)"] <= slider[1])]`.  The payload-range filter of
the scatter path (the spec's `filterByRange`). -/
def filterByRange (df : List LaunchRecord) (low high : Int) : List LaunchRecord :=
  df.filter (fun r => decide (low ≤ r.payloadMassKg) && decide (r.payloadMassKg ≤ high))

/-- The site-selection behaviour shared by both callbacks (the spec's
`filterBySite`): for the synthetic value `"ALL"` the frame is used unchanged
(lines 99-100 and 148), otherwise it is the row filter
`df[df["Launch Site"] == entered_site]` (lines 109 and 157). -/
def filterBySite (df : List LaunchRecord) (site : String) : List LaunchRecord :=
  if site = "ALL" then df else df.filter (fun r => r.launchSite == site)

/-- The grouping key of `groupby(["Launch Site", "class"])`. -/
def siteClassKey (r : LaunchRecord) : String × Int :=
  (r.launchSite, r.outcomeClass)

/-- Ascending lexicographic order on group keys; pandas `groupby` emits group
keys sorted ascending. -/
def siteClassLE (a b : String × Int) : Bool :=
  decide (a.1 < b.1) || (a.1 == b.1 && decide (a.2 ≤ b.2))

/-- The group keys present in the frame, in the order `groupby` emits them. -/
def groupKeys (df : List LaunchRecord) : List (String × Int) :=
  ((df.map siteClassKey).dedup).mergeSort siteClassLE

/-- Lines 110-114: `filtered_df.groupby(["Launch Site", "class"]).size()
.reset_index(name="count of class")` (the spec's `aggregateOutcomeCounts`):
one output row `(site, class, count)` per group key present in the input. -/
def aggregateOutcomeCounts (df : List LaunchRecord) : List (String × Int × Nat) :=
  (groupKeys df).map (fun k => (k.1, k.2, df.countP (fun r => decide (siteClassKey r = k))))

/-- The one pandas failure the callbacks can hit: the `ValueError` raised by
the line-158 column assignment. -/
inductive PandasError where
  | valueError
deriving DecidableEq

/-- Line 158: `filtered_df["outcome"] = filtered_df[filtered_df["class"] == "Success"]`.
The mask compares the integer `class` column with the string `"Success"` and so
holds of no row, but `filtered_df[mask]` is an empty frame that still has all
of the frame's columns, and assigning a multi-column frame to a single column
raises `ValueError` in pandas whatever the number of rows.  The statement never
completes, so no augmented frame is ever produced. -/
def setOutcomeColumn (_filtered_df : List LaunchRecord) :
    Except PandasError (List LaunchRecord) :=
  Except.error PandasError.valueError

/-- Lines 87-121: the `success-pie-chart` callback.  `ALL` pies the whole frame
with `values="class"`, `names="Launch Site"`; a specific site filters the frame
to that site, aggregates by `(Launch Site, class)` and pies the counts keyed by
the class value. -/
def get_pie_chart (spacex_df : List LaunchRecord) (entered_site : String) : Figure :=
  if entered_site = "ALL" then
    Figure.pie (spacex_df.map (·.outcomeClass)) (spacex_df.map (·.launchSite))
      "Success Count for all launch sites"
  else
    let filtered_df := spacex_df.filter (fun r => r.launchSite == entered_site)
    let grouped := aggregateOutcomeCounts filtered_df
    Figure.pie (grouped.map (fun g => (g.2.2 : Int))) (grouped.map (fun g => toString g.2.1))
      ("Total Success Launches for site " ++ entered_site)

/-- Lines 131-165: the `success-payload-scatter-chart` callback.  The payload
range filter is applied first; `ALL` scatters that frame directly with
`x="Payload Mass (kg)"`, `y="class"`, `color="Booster Version Category"`; a
specific site further filters by site and then attempts the line-158 column
assignment, whose `ValueError` propagates out of the callback before any figure
is built (were the assignment to succeed, the augmented frame would be
scattered with the same column bindings). -/
def get_scatter_chart (spacex_df : List LaunchRecord) (entered_site : String)
    (slider : Int × Int) : Except PandasError Figure :=
  let filtered_df := filterByRange spacex_df slider.1 slider.2
  if entered_site = "ALL" then
    Except.ok (Figure.scatter (filtered_df.map (·.payloadMassKg))
      (filtered_df.map (·.outcomeClass))
      (filtered_df.map (·.boosterVersionCategory)) "Launch Success Rate For All Sites")
  else
    let filtered_df2 := filtered_df.filter (fun r => r.launchSite == entered_site)
    match setOutcomeColumn filtered_df2 with
    | Except.error e => Except.error e
    | Except.ok withOutcome =>
        Except.ok (Figure.scatter (withOutcome.map (·.payloadMassKg))
          (withOutcome.map (·.outcomeClass))
          (withOutcome.map (·.boosterVersionCategory))
          ("Launch Success Rate For " ++ entered_site))

/-- The scatter callback with the line-158 column assignment removed,
everything else identical; nothing in it can fail, so it returns the figure
outright. -/
def get_scatter_chart_clean (spacex_df : List LaunchRecord) (entered_site : String)
    (slider : Int × Int) : Figure :=
  let filtered_df := filterByRange spacex_df slider.1 slider.2
  if entered_site = "ALL" then
    Figure.scatter (filtered_df.map (·.payloadMassKg)) (filtered_df.map (·.outcomeClass))
      (filtered_df.map (·.boosterVersionCategory)) "Launch Success Rate For All Sites"
  else
    let filtered_df2 := filtered_df.filter (fun r => r.launchSite == entered_site)
    Figure.scatter (filtered_df2.map (·.payloadMassKg))
      (filtered_df2.map (·.outcomeClass))
      (filtered_df2.map (·.boosterVersionCategory))
      ("Launch Success Rate For " ++ entered_site)

/-- The spec-level scatter builder: `px.scatter` bindings taken column-wise from
a frame of launch records. -/
def scatterFig (df : List LaunchRecord) (title : String) : Figure :=
  Figure.scatter (df.map (·.payloadMassKg)) (df.map (·.outcomeClass))
    (df.map (·.boosterVersionCategory)) title

/-- The spec-level all-sites pie builder: `values="class"`, `names="Launch Site"`. -/
def pieFigAll (df : List LaunchRecord) : Figure :=
  Figure.pie (df.map (·.outcomeClass)) (df.map (·.launchSite))
    "Success Count for all launch sites"

/-- The spec-level specific-site pie builder over pre-aggregated counts:
`values="count of class"`, `names="class"`. -/
def pieFigSite (agg : List (String × Int × Nat)) (site : String) : Figure :=
  Figure.pie (agg.map (fun g => (g.2.2 : Int))) (agg.map (fun g => toString g.2.1))
    ("Total Success Launches for site " ++ site)

/-- Line 34: `spacex_df["Payload Mass (kg)"].max()` (0 when the frame is empty,
where pandas would give NaN). -/
def max_payload (spacex_df : List LaunchRecord) : Int :=
  ((spacex_df.map (·.payloadMassKg)).max?).getD 0

/-- Line 35: `spacex_df["Payload Mass (kg)"].min()` (0 when the frame is empty,
where pandas would give NaN). -/
def min_payload (spacex_df : List LaunchRecord) : Int :=
  ((spacex_df.map (·.payloadMassKg)).min?).getD 0

/-- The `dcc.RangeSlider` properties set in the layout. -/
structure RangeSlider where
  min : Int
  max : Int
  step : Int
  marks : List (Int × String)
  value : Int × Int
deriving DecidableEq

/-- Lines 68-76: the `payload-slider` control, as configured for the dataset
loaded at startup. -/
def payload_slider (spacex_df : List LaunchRecord) : RangeSlider :=
  { min := 0
    max := 10000
    step := 1000
    marks := [(0, "0"), (10000, "10000")]
    value := (min_payload spacex_df, max_payload spacex_df) }

/-- One callback invocation, as dispatched by Dash: a pie request carries the
dropdown value, a scatter request additionally carries the slider value. -/
inductive Callback where
  | pie (entered_site : String)
  | scatter (entered_site : String) (slider : Int × Int)
deriving DecidableEq

/-- One callback invocation against the module-level dataset: the outcome of
the call (the produced figure, or the propagated `ValueError` of the
specific-site scatter path) together with the dataset as it stands after the
call.  Pandas boolean indexing yields fresh frames, neither callback assigns to
`spacex_df`, and the failing line-158 assignment touches only the local copy,
so each branch hands the dataset back unchanged. -/
def invoke (spacex_df : List LaunchRecord) :
    Callback → Except PandasError Figure × List LaunchRecord
  | Callback.pie site => (Except.ok (get_pie_chart spacex_df site), spacex_df)
  | Callback.scatter site slider => (get_scatter_chart spacex_df site slider, spacex_df)

/-- The module-level dataset after a run of callback invocations. -/
def runAll (spacex_df : List LaunchRecord) : List Callback → List LaunchRecord
  | [] => spacex_df
  | c :: cs => runAll (invoke spacex_df c).2 cs

/-- The three-row dataset of the spec's test scenario, with booster categories
filled in. -/
def sampleD : List LaunchRecord :=
  [{ launchSite := "CCAFS LC-40", payloadMassKg := 500, outcomeClass := 0,
     boosterVersionCategory := "v1.0" },
   { launchSite := "CCAFS LC-40", payloadMassKg := 500, outcomeClass := 1,
     boosterVersionCategory := "v1.0" },
   { launchSite := "KSC LC-39A", payloadMassKg := 3000, outcomeClass := 1,
     boosterVersionCategory := "FT" }]

lemma countP_key_eq_countP_map (df : List LaunchRecord) (k : String × Int) :
    df.countP (fun r => decide (siteClassKey r = k))
      = (df.map siteClassKey).countP (fun a => decide (a = k)) := by
  rw [List.countP_map]
  rfl

lemma sum_countP_dedup {α : Type} [DecidableEq α] (l : List α) :
    ((l.dedup).map (fun k => l.countP (fun a => decide (a = k)))).sum = l.length :=
  List.sum_map_count_dedup_eq_length l

lemma aggregate_counts_sum (df : List LaunchRecord) :
    ((aggregateOutcomeCounts df).map (fun g => g.2.2)).sum = df.length := by
  have h1 : (aggregateOutcomeCounts df).map (fun g => g.2.2) =
      ((df.map siteClassKey).dedup.mergeSort siteClassLE).map
        (fun k => (df.map siteClassKey).countP (fun a => decide (a = k))) := by
    unfold aggregateOutcomeCounts groupKeys
    rw [List.map_map]
    apply List.map_congr_left
    intro k _
    exact countP_key_eq_countP_map df k
  have h2 := (List.mergeSort_perm (df.map siteClassKey).dedup siteClassLE).map
    (fun k => (df.map siteClassKey).countP (fun a => decide (a = k)))
  rw [h1, h2.sum_eq, sum_countP_dedup, List.length_map]

/-- Claim C1: with `lo ≤ hi`, the range filter of the scatter path returns
exactly the records whose payload lies in `[lo, hi]`: every returned record
satisfies the bounds, the result is a sublist of the dataset (original relative
order), and every record value inside the bounds keeps its exact
multiplicity. -/
theorem C1_filterByRange_exact (df : List LaunchRecord) (lo hi : Int) (_hlohi : lo ≤ hi) :
    (∀ r ∈ filterByRange df lo hi, lo ≤ r.payloadMassKg ∧ r.payloadMassKg ≤ hi)
    ∧ (filterByRange df lo hi).Sublist df
    ∧ (∀ r : LaunchRecord, lo ≤ r.payloadMassKg → r.payloadMassKg ≤ hi →
        (filterByRange df lo hi).count r = df.count r) := by
  refine ⟨?_, List.filter_sublist df, ?_⟩
  · intro r hr
    have h := List.of_mem_filter hr
    simp only [Bool.and_eq_true, decide_eq_true_eq] at h
    exact h
  · intro r h1 h2
    apply List.count_filter
    simp only [Bool.and_eq_true, decide_eq_true_eq]
    exact ⟨h1, h2⟩

/-- Witness for C1 at the sample dataset and the range `[0, 1000]`. -/
theorem C1_witness :
    (0 : Int) ≤ 1000
    ∧ ((∀ r ∈ filterByRange sampleD 0 1000, 0 ≤ r.payloadMassKg ∧ r.payloadMassKg ≤ 1000)
      ∧ (filterByRange sampleD 0 1000).Sublist sampleD
      ∧ (∀ r : LaunchRecord, 0 ≤ r.payloadMassKg → r.payloadMassKg ≤ 1000 →
          (filterByRange sampleD 0 1000).count r = sampleD.count r)) :=
  ⟨by decide, C1_filterByRange_exact sampleD 0 1000 (by decide)⟩

/-- Claim C6: an inverted range (`low > high`) yields the empty frame, and no
failure is signalled: the filter is a total function into lists. -/
theorem C6_filterByRange_inverted_empty (df : List LaunchRecord) (lo hi : Int)
    (h : hi < lo) : filterByRange df lo hi = [] := by
  unfold filterByRange
  apply List.filter_eq_nil_iff.mpr
  intro r _
  have hn : ¬ (lo ≤ r.payloadMassKg ∧ r.payloadMassKg ≤ hi) := by omega
  simpa using hn

/-- Witness for C6 at the sample dataset and the inverted range `[5, 3]`. -/
theorem C6_witness : (3 : Int) < 5 ∧ filterByRange sampleD 5 3 = [] :=
  ⟨by decide, C6_filterByRange_inverted_empty sampleD 5 3 (by decide)⟩

/-- Claim C5: for a site other than `ALL`, the site filter returns exactly the
records whose `Launch Site` equals the given value: it is the row filter on that
equality, every returned record bears the site, the result is a sublist of the
dataset (original relative order), and records of that site keep their exact
multiplicity. -/
theorem C5_filterBySite_specific (df : List LaunchRecord) (site : String)
    (hsite : site ≠ "ALL") :
    filterBySite df site = df.filter (fun r => r.launchSite == site)
    ∧ (∀ r ∈ filterBySite df site, r.launchSite = site)
    ∧ (filterBySite df site).Sublist df
    ∧ (∀ r : LaunchRecord, r.launchSite = site →
        (filterBySite df site).count r = df.count r) := by
  have he : filterBySite df site = df.filter (fun r => r.launchSite == site) := by
    simp [filterBySite, hsite]
  refine ⟨he, ?_, ?_, ?_⟩
  · intro r hr
    rw [he] at hr
    have h := List.of_mem_filter hr
    simpa using h
  · rw [he]
    exact List.filter_sublist df
  · intro r h1
    rw [he]
    apply List.count_filter
    simpa using h1

/-- Witness for C5 at the sample dataset and the site of its first record. -/
theorem C5_witness :
    "CCAFS LC-40" ≠ "ALL"
    ∧ (filterBySite sampleD "CCAFS LC-40"
        = sampleD.filter (fun r => r.launchSite == "CCAFS LC-40")
      ∧ (∀ r ∈ filterBySite sampleD "CCAFS LC-40", r.launchSite = "CCAFS LC-40")
      ∧ (filterBySite sampleD "CCAFS LC-40").Sublist sampleD
      ∧ (∀ r : LaunchRecord, r.launchSite = "CCAFS LC-40" →
          (filterBySite sampleD "CCAFS LC-40").count r = sampleD.count r)) :=
  ⟨by decide, C5_filterBySite_specific sampleD "CCAFS LC-40" (by decide)⟩

/-- Claim C4: selecting `ALL` leaves the dataset untouched in both paths: the
site filter is the identity at `ALL`, the pie callback charts the whole frame,
and the scatter callback charts the range-filtered frame with no site
filtering. -/
theorem C4_site_all_identity (df : List LaunchRecord) :
    filterBySite df "ALL" = df
    ∧ get_pie_chart df "ALL" = pieFigAll df
    ∧ (∀ lo hi : Int,
        get_scatter_chart df "ALL" (lo, hi)
          = Except.ok (scatterFig (filterByRange df lo hi)
              "Launch Success Rate For All Sites")) := by
  refine ⟨?_, ?_, ?_⟩
  · simp [filterBySite]
  · simp [get_pie_chart, pieFigAll]
  · intro lo hi
    simp [get_scatter_chart, scatterFig]

/-- Claim C2: pipeline composition order.  The scatter callback coincides with
the pipeline that applies the range filter first and then the site filter (a
no-op at `ALL`) and hands the composed frame to its tail: at `ALL` the scatter
builder, at a specific site the line-158 column assignment followed by the
figure build (so the assignment's error is what comes out).  The pie callback
equals the pie builder applied to the site filter alone, with the grouped
outcome-count aggregation applied only when a specific site is selected. -/
theorem C2_pipeline_composition (df : List LaunchRecord) (site : String) (lo hi : Int) :
    get_scatter_chart df site (lo, hi)
      = (if site = "ALL" then
          Except.ok (scatterFig (filterBySite (filterByRange df lo hi) site)
            "Launch Success Rate For All Sites")
        else
          (setOutcomeColumn (filterBySite (filterByRange df lo hi) site)).map
            (fun w => scatterFig w ("Launch Success Rate For " ++ site)))
    ∧ get_pie_chart df site
      = (if site = "ALL" then pieFigAll df
          else pieFigSite (aggregateOutcomeCounts (filterBySite df site)) site) := by
  constructor
  · by_cases h : site = "ALL"
    · simp [get_scatter_chart, scatterFig, filterBySite, h]
    · simp [get_scatter_chart, scatterFig, filterBySite, h, setOutcomeColumn,
        Except.map]
  · by_cases h : site = "ALL"
    · simp [get_pie_chart, pieFigAll, h]
    · simp [get_pie_chart, pieFigSite, filterBySite, h]

/-- Claim C3: the grouped (site, class) counts of the pie path sum to the number
of records the site filter returns for that site. -/
theorem C3_aggregate_counts_total (df : List LaunchRecord) (site : String) :
    ((aggregateOutcomeCounts (filterBySite df site)).map (fun g => g.2.2)).sum
      = (filterBySite df site).length :=
  aggregate_counts_sum (filterBySite df site)

/-- Claim C7: the dataset loaded at startup is never mutated: after any run of
callback invocations, for any site selections and slider ranges, the
module-level dataset equals its state at load time. -/
theorem C7_dataset_immutable (df : List LaunchRecord) (cs : List Callback) :
    runAll df cs = df := by
  induction cs generalizing df with
  | nil => rfl
  | cons c cs ih => cases c <;> simp [runAll, invoke, ih]

/-- Claim C8: invoking the same callback twice with identical inputs against the
unchanged dataset yields the identical figure both times, the dataset being
unchanged in between. -/
theorem C8_repeat_invocation_deterministic (df : List LaunchRecord) (c : Callback) :
    (invoke df c).1 = (invoke (invoke df c).2 c).1
    ∧ (invoke (invoke df c).2 c).2 = df := by
  cases c <;> simp [invoke]

/-- Claim C9 against the code: the line-158 `outcome` computation is not dead.
At a specific site the callback raises `ValueError` there and returns no chart,
while the same callback with line 158 removed produces the scatter figure of
the filtered frame, so removing the computation changes the observable
behaviour from an exception to a chart.  Evaluated at the concrete failing
input (sample dataset, site of its third record, range `[0, 10000]`). -/
theorem C9_line158_raises :
    get_scatter_chart sampleD "KSC LC-39A" (0, 10000)
      = Except.error PandasError.valueError
    ∧ get_scatter_chart_clean sampleD "KSC LC-39A" (0, 10000)
      = Figure.scatter [3000] [1] ["FT"] "Launch Success Rate For KSC LC-39A" :=
  ⟨by rfl, by decide⟩

/-- Counterexample to claim C10 as stated: on the sample dataset the slider's
bounds are the constants 0 and 10000, not the observed payload minimum 500 and
maximum 3000. -/
theorem C10_counterexample :
    ¬ ((payload_slider sampleD).min = min_payload sampleD
      ∧ (payload_slider sampleD).max = max_payload sampleD) := by
  decide

/-- Claim C10 amended: the slider's lower and upper bounds are the fixed
constants 0 and 10000; it is the slider's initial value, not its bounds, that
equals the dataset's observed minimum and maximum payload mass computed at load
time. -/
theorem C10_slider_bounds_and_value (df : List LaunchRecord) :
    (payload_slider df).min = 0 ∧ (payload_slider df).max = 10000
    ∧ (payload_slider df).value = (min_payload df, max_payload df) :=
  ⟨rfl, rfl, rfl⟩
